import Mathlib

/-!
Verification of the review image-upload subsystem, the file-lifecycle
management, and the bot-side API error translator of the echo-fastapi
repository, as a shallow embedding in Lean.

Server side (app/api/routers/reviews.py): bytes are modelled as `List Nat`
(values 0..255; only prefixes and lengths matter to the properties), the
database as a list of `Review` records, and the filesystem as explicit
lists of directory paths and files.  Handlers that raise `HTTPException`
are modelled as functions returning the resulting state together with an
`Except HttpError` outcome: a raise leaves the state component at its
value when the exception unwinds, exactly as in the code.

Client side (bot/api_client.py): an HTTP response is a status code plus
the result of `response.json()` — `none` when the body is not valid JSON
(the `ValueError` case), `some j` otherwise.  Python dynamic-typing
failures (`AttributeError`, `IndexError`, `TypeError`) that the code does
not catch are modelled explicitly, so the translator's outcome type
distinguishes the four typed failures from an escaping untyped exception.
-/

namespace EchoFastapi

/-- Decidable equality for `Except` results, used to evaluate concrete runs. -/
instance {ε α : Type} [DecidableEq ε] [DecidableEq α] :
    DecidableEq (Except ε α) := fun a b =>
  match a, b with
  | .error x, .error y => decidable_of_iff (x = y) (by simp)
  | .error _, .ok _ => isFalse (fun h => Except.noConfusion h)
  | .ok _, .error _ => isFalse (fun h => Except.noConfusion h)
  | .ok x, .ok y => decidable_of_iff (x = y) (by simp)

/-! ### Constants (reviews.py lines 20-33) -/

/-- Max file size for image uploads (5MB): `MAX_IMAGE_SIZE = 5 * 1024 * 1024`. -/
def MAX_IMAGE_SIZE : Nat := 5 * 1024 * 1024

/-- Directory for uploaded files: `UPLOADS_DIR = os.getenv("UPLOADS_DIR", "uploads")`,
modelled at its default value. -/
def UPLOADS_DIR : String := "uploads"

/-- Allowed image signatures (magic bytes), the keys of `IMAGE_SIGNATURES`:
JPEG `FF D8 FF`, PNG `89 50 4E 47 0D 0A 1A 0A`, `GIF87a`, `GIF89a`, `RIFF`. -/
def IMAGE_SIGNATURES : List (List Nat) :=
  [ [0xff, 0xd8, 0xff],
    [0x89, 0x50, 0x4e, 0x47, 0x0d, 0x0a, 0x1a, 0x0a],
    [0x47, 0x49, 0x46, 0x38, 0x37, 0x61],
    [0x47, 0x49, 0x46, 0x38, 0x39, 0x61],
    [0x52, 0x49, 0x46, 0x46] ]

/-! ### Python string primitives, at the character level so that they are
kernel-computable -/

/-- Python `sub in s` for a single-character `sub`. -/
def strContainsChar (s : String) (c : Char) : Bool :=
  s.data.contains c

/-- Python `s.startswith(p)`. -/
def str_startswith (s p : String) : Bool :=
  p.data.isPrefixOf s.data

/-- Python `s.rsplit(sep, 1)[-1]` for a one-character separator: the suffix
after the last occurrence of the separator (the whole string when the
separator is absent). -/
def afterLastChar (s : String) (c : Char) : String :=
  String.mk ((s.data.reverse.takeWhile (fun d => d != c)).reverse)

/-- Python `s.lower()` (the code only relies on ASCII). -/
def strLower (s : String) : String :=
  String.mk (s.data.map Char.toLower)

/-! ### Validator helpers (reviews.py lines 137-152) -/

/-- `_validate_image_signature`: the content starts with one of the known
signatures. -/
def validate_image_signature (content : List Nat) : Bool :=
  IMAGE_SIGNATURES.any (fun signature => signature.isPrefixOf content)

/-- The set `allowed_extensions` of `_get_safe_extension`. -/
def allowed_extensions : List String := [".jpg", ".jpeg", ".png", ".gif", ".webp"]

/-- `_get_safe_extension`: `"." + filename.rsplit(".", 1)[-1].lower()` when the
filename is truthy and contains a dot and the result is allowed, else `".jpg"`.
`rsplit(".", 1)[-1]` is the segment after the last dot. -/
def get_safe_extension (filename : Option String) : String :=
  match filename with
  | some s =>
      if s != "" && strContainsChar s '.' then
        if allowed_extensions.contains ("." ++ strLower (afterLastChar s '.')) then
          "." ++ strLower (afterLastChar s '.')
        else ".jpg"
      else ".jpg"
  | none => ".jpg"

/-! ### Data model (models/review.py) -/

/-- `MediaType` enum. -/
inductive MediaType where
  | movie
  | tv
  | book
  | play
  deriving DecidableEq, Repr

/-- The `Review` ORM record.  Timestamps are abstract instants (`Nat`). -/
structure Review where
  id : Nat
  author_name : String
  author_telegram_id : Option Int
  media_type : MediaType
  media_title : String
  media_year : Option Int
  rating : Nat
  text : String
  contains_spoilers : Bool
  image_path : Option String
  created_at : Nat
  updated_at : Nat
  deriving DecidableEq, Repr

/-- Python truthiness of an optional string (`if review.image_path:` and
`if filename`): `None` and `""` are falsy. -/
def truthyOpt : Option String → Bool
  | none => false
  | some s => s != ""

/-! ### Filesystem model -/

/-- Directories and regular files, by absolute-ish path string. -/
structure FileSystem where
  dirs : List String
  files : List (String × List Nat)
  deriving DecidableEq, Repr

/-- `Path.mkdir(parents=True, exist_ok=True)` for the one nesting level the
code creates: idempotent creation of the directory path. -/
def FileSystem.mkdirAll (fs : FileSystem) (p : String) : FileSystem :=
  if fs.dirs.contains p then fs else { fs with dirs := p :: fs.dirs }

/-- `file_path.write_bytes(content)`: create or overwrite the file. -/
def FileSystem.writeBytes (fs : FileSystem) (p : String) (content : List Nat) :
    FileSystem :=
  { fs with files := (p, content) :: fs.files.filter (fun q => q.1 != p) }

/-- `path.exists()` for a directory path. -/
def FileSystem.dirExists (fs : FileSystem) (p : String) : Bool :=
  fs.dirs.contains p

/-- `shutil.rmtree(p)`: remove the directory, any directory below it, and
every file below it. -/
def FileSystem.rmtree (fs : FileSystem) (p : String) : FileSystem :=
  { dirs := fs.dirs.filter (fun d => !(d == p || str_startswith d (p ++ "/"))),
    files := fs.files.filter (fun q => !(str_startswith q.1 (p ++ "/"))) }

/-- `Path(UPLOADS_DIR) / "reviews" / str(review_id)`. -/
def reviewDirPath (review_id : Nat) : String :=
  UPLOADS_DIR ++ "/reviews/" ++ toString review_id

/-! ### Application state -/

/-- Database (list of reviews) plus filesystem. -/
structure AppState where
  reviews : List Review
  fs : FileSystem
  deriving DecidableEq, Repr

/-- `db.get(Review, review_id)`. -/
def AppState.getReview (st : AppState) (review_id : Nat) : Option Review :=
  st.reviews.find? (fun r => r.id == review_id)

/-- An `HTTPException`: status code and detail string. -/
structure HttpError where
  status_code : Nat
  detail : String
  deriving DecidableEq, Repr

/-- The size-limit detail string
`f"File size exceeds maximum allowed size of {MAX_IMAGE_SIZE // (1024 * 1024)}MB"`. -/
def sizeLimitMessage : String :=
  "File size exceeds maximum allowed size of "
    ++ toString (MAX_IMAGE_SIZE / (1024 * 1024)) ++ "MB"

/-- Python truthiness of the declared content type followed by
`content_type.startswith("image/")` (reviews.py line 167). -/
def content_type_ok (content_type : Option String) : Bool :=
  match content_type with
  | none => false
  | some s => s != "" && str_startswith s "image/"

/-- The three validation checks of `upload_review_image` (lines 166-186), in
code order, with the `HTTPException` each raises. -/
def validate_upload (content_type : Option String) (content : List Nat) :
    Except HttpError Unit :=
  if !content_type_ok content_type then
    .error ⟨400, "File must be an image"⟩
  else if content.length > MAX_IMAGE_SIZE then
    .error ⟨400, sizeLimitMessage⟩
  else if !validate_image_signature content then
    .error ⟨400, "Invalid image file format"⟩
  else
    .ok ()

/-! ### Upload endpoint (reviews.py lines 155-205) -/

/-- `upload_review_image`.  `now` is the instant `utc_now()` produces for the
`onupdate` column at commit time, and `token` is the value of
`uuid.uuid4().hex` for this request; both are nondeterministic inputs passed
in explicitly.  Returns the state after the handler together with the
outcome: a raise happens before any mutation on every error path. -/
def upload_review_image (st : AppState) (now : Nat) (token : String)
    (review_id : Nat) (content_type : Option String)
    (filename : Option String) (content : List Nat) :
    AppState × Except HttpError Review :=
  match st.getReview review_id with
  | none => (st, .error ⟨404, "Review not found"⟩)
  | some review =>
    match validate_upload content_type content with
    | .error e => (st, .error e)
    | .ok _ =>
      let extension := get_safe_extension filename
      let safe_filename := token ++ extension
      let fs1 := st.fs.mkdirAll (reviewDirPath review_id)
      let fs2 := fs1.writeBytes (reviewDirPath review_id ++ "/" ++ safe_filename)
        content
      let relative_path :=
        UPLOADS_DIR ++ "/reviews/" ++ toString review_id ++ "/" ++ safe_filename
      let newReview :=
        { review with image_path := some relative_path, updated_at := now }
      let newReviews :=
        st.reviews.map (fun r => if r.id == review_id then newReview else r)
      ({ reviews := newReviews, fs := fs2 }, .ok newReview)

/-! ### Deletion endpoint (reviews.py lines 113-134) -/

/-- `delete_review`.  `rmtreeRaises` is the environment oracle: when `true`,
the `shutil.rmtree` call raises `OSError` (which the code logs and swallows,
leaving the directory in place); when `false`, removal succeeds. -/
def delete_review (st : AppState) (rmtreeRaises : Bool) (review_id : Nat) :
    AppState × Except HttpError Unit :=
  match st.getReview review_id with
  | none => (st, .error ⟨404, "Review not found"⟩)
  | some review =>
    let fs1 :=
      if truthyOpt review.image_path then
        if st.fs.dirExists (reviewDirPath review_id) then
          if rmtreeRaises then st.fs else st.fs.rmtree (reviewDirPath review_id)
        else st.fs
      else st.fs
    ({ reviews := st.reviews.filter (fun r => r.id != review_id), fs := fs1 },
      .ok ())

/-! ### Client-side translator (bot/api_client.py) -/

/-- A parsed JSON value (numbers restricted to integers; no claim involves
floats). -/
inductive Json where
  | null
  | bool (b : Bool)
  | num (n : Int)
  | str (s : String)
  | arr (xs : List Json)
  | obj (kvs : List (String × Json))

/-- An HTTP response as the translator sees it: status code plus the result
of `response.json()` — `none` when parsing raises `ValueError`. -/
structure HttpResponse where
  status_code : Nat
  body : Option Json

/-- Python dynamic failures the translator code can raise.  `keyError` is
the one exception of these that `except (ValueError, KeyError)` catches. -/
inductive PyExn where
  | attributeError
  | indexError
  | typeError
  | keyError
  deriving DecidableEq, Repr

/-- Whether a JSON value is an object (a Python dict) — the shape on which
`.get` is defined. -/
def Json.isObj : Json → Bool
  | .obj _ => true
  | _ => false

/-- `dict.get(k, d)` on a JSON object. -/
def jsonGet (kvs : List (String × Json)) (k : String) (d : Json) : Json :=
  match kvs.find? (fun kv => kv.1 == k) with
  | some kv => kv.2
  | none => d

mutual

/-- Python `str()` of a JSON value (`f"{...}"` interpolation and
`str(details)`). -/
def pyStr : Json → String
  | .null => "None"
  | .bool true => "True"
  | .bool false => "False"
  | .num n => toString n
  | .str s => s
  | .arr xs => "[" ++ pyShowList xs ++ "]"
  | .obj kvs => "\x7b" ++ pyShowPairs kvs ++ "\x7d"

/-- Python `repr()` of a JSON value, as used by `str()` on containers. -/
def pyShowElem : Json → String
  | .null => "None"
  | .bool true => "True"
  | .bool false => "False"
  | .num n => toString n
  | .str s => "\x27" ++ s ++ "\x27"
  | .arr xs => "[" ++ pyShowList xs ++ "]"
  | .obj kvs => "\x7b" ++ pyShowPairs kvs ++ "\x7d"

/-- Comma-joined reprs of list elements. -/
def pyShowList : List Json → String
  | [] => ""
  | [x] => pyShowElem x
  | x :: y :: rest => pyShowElem x ++ ", " ++ pyShowList (y :: rest)

/-- Comma-joined reprs of dict items. -/
def pyShowPairs : List (String × Json) → String
  | [] => ""
  | [kv] => "\x27" ++ kv.1 ++ "\x27: " ++ pyShowElem kv.2
  | kv :: kv2 :: rest =>
      "\x27" ++ kv.1 ++ "\x27: " ++ pyShowElem kv.2 ++ ", "
        ++ pyShowPairs (kv2 :: rest)

end

/-- The translator's outcome: a pass-through response, one of the four typed
failures, or an untyped Python exception escaping the handler. -/
inductive Outcome where
  | ok (resp : HttpResponse)
  | apiNotFound (detail : Json)
  | apiValidationError (message : String) (details : List String)
  | apiBadRequest (detail : Json)
  | apiUnavailable (message : String)
  | uncaught (e : PyExn)

/-- `_extract_detail`: `response.json()` then `data.get("detail", "Unknown
error")`, with `except (ValueError, KeyError)` returning `"Unknown error"`.
A `ValueError` from `json()` is caught; `.get` on a non-dict raises
`AttributeError`, which the `except` clause does not cover. -/
def extract_detail (body : Option Json) : Except PyExn Json :=
  match body with
  | none => .ok (.str "Unknown error")
  | some j =>
    match j with
    | .obj kvs => .ok (jsonGet kvs "detail" (.str "Unknown error"))
    | _ => .error .attributeError

/-- `err.get('loc', ['?'])[-1]`-style negative indexing: last element of a
list (IndexError when empty), last character of a string (IndexError when
empty), KeyError on a dict (JSON object keys are strings, so `-1` is never
present), TypeError on anything else. -/
def pyLastIndex : Json → Except PyExn Json
  | .arr xs =>
    match xs.getLast? with
    | some v => .ok v
    | none => .error .indexError
  | .str s =>
    match s.toList.getLast? with
    | some c => .ok (.str (toString c))
    | none => .error .indexError
  | .obj _ => .error .keyError
  | _ => .error .typeError

/-- One element of the 422 list comprehension:
`f"{err.get('loc', ['?'])[-1]}: {err.get('msg', 'error')}"`.  `.get` on a
non-dict element raises `AttributeError`. -/
def errMessage (err : Json) : Except PyExn String :=
  match err with
  | .obj kvs =>
    match pyLastIndex (jsonGet kvs "loc" (.arr [.str "?"])) with
    | .error e => .error e
    | .ok l => .ok (pyStr l ++ ": " ++ pyStr (jsonGet kvs "msg" (.str "error")))
  | _ => .error .attributeError

/-- The whole comprehension, left to right, first exception aborting. -/
def errMessages : List Json → Except PyExn (List String)
  | [] => .ok []
  | e :: rest =>
    match errMessage e with
    | .error ex => .error ex
    | .ok m =>
      match errMessages rest with
      | .error ex => .error ex
      | .ok ms => .ok (m :: ms)

/-- The 422 branch of `_handle_response` (lines 77-89).  The surrounding
`try`/`except (ValueError, KeyError)` catches the `ValueError` from
`response.json()` and any `KeyError` raised while shaping the messages,
yielding the bare `ApiValidationError("Validation error")`; `AttributeError`,
`IndexError` and `TypeError` escape, and the `ApiValidationError` raises
themselves are not `ValueError`/`KeyError` subclasses so they propagate. -/
def handle422 (body : Option Json) : Outcome :=
  match body with
  | none => .apiValidationError "Validation error" []
  | some data =>
    match data with
    | .obj kvs =>
      let details := jsonGet kvs "detail" (.arr [])
      match details with
      | .arr errs =>
        match errMessages errs with
        | .ok messages => .apiValidationError "Validation error" messages
        | .error .keyError => .apiValidationError "Validation error" []
        | .error ex => .uncaught ex
      | _ => .apiValidationError (pyStr details) []
    | _ => .uncaught .attributeError

/-- `_handle_response` (lines 58-98): 404, 422, 400, >= 500, else pass
through. -/
def handle_response (resp : HttpResponse) : Outcome :=
  if resp.status_code == 404 then
    match extract_detail resp.body with
    | .ok d => .apiNotFound d
    | .error e => .uncaught e
  else if resp.status_code == 422 then
    handle422 resp.body
  else if resp.status_code == 400 then
    match extract_detail resp.body with
    | .ok d => .apiBadRequest d
    | .error e => .uncaught e
  else if resp.status_code ≥ 500 then
    .apiUnavailable ("Server error: " ++ toString resp.status_code)
  else
    .ok resp

/-- What the transport layer hands `_make_request`: one of the three caught
`httpx` exceptions (carrying their rendered text) or a response. -/
inductive TransportResult where
  | timeout (msg : String)
  | connectError (msg : String)
  | requestError (msg : String)
  | response (resp : HttpResponse)

/-- `_make_request` (lines 45-56): the three transport handlers, then
`_handle_response`. -/
def make_request (t : TransportResult) : Outcome :=
  match t with
  | .timeout m => .apiUnavailable ("Request timed out: " ++ m)
  | .connectError m => .apiUnavailable ("Failed to connect to API: " ++ m)
  | .requestError m => .apiUnavailable ("Request failed: " ++ m)
  | .response r => handle_response r

/-! ### Concrete worlds used to instantiate the theorems -/

/-- A concrete review record without an image. -/
def review1 : Review :=
  { id := 1, author_name := "Alice", author_telegram_id := none,
    media_type := .movie, media_title := "Test Movie", media_year := none,
    rating := 8, text := "Great movie", contains_spoilers := false,
    image_path := none, created_at := 0, updated_at := 0 }

/-- Fresh state: one review, empty filesystem. -/
def st0 : AppState :=
  { reviews := [review1], fs := { dirs := [], files := [] } }

/-- The 10-byte JPEG-signed payload of the spec scenario. -/
def jpegBytes : List Nat := [0xff, 0xd8, 0xff, 0, 0, 0, 0, 0, 0, 0]

/-- `review1` after the scenario upload with token `abc123` at instant 5. -/
def review1up : Review :=
  { review1 with
    image_path := some "uploads/reviews/1/abc123.jpg",
    updated_at := 5 }

/-- State whose review owns an image and whose directory is on disk. -/
def stimg : AppState :=
  { reviews := [{ review1 with image_path := some "uploads/reviews/1/a.jpg" }],
    fs := { dirs := ["uploads/reviews/1"],
            files := [("uploads/reviews/1/a.jpg", jpegBytes)] } }

/-- State whose review has no image path even though the per-review
directory exists on disk. -/
def stno : AppState :=
  { reviews := [review1],
    fs := { dirs := ["uploads/reviews/1"], files := [] } }

/-! ### Claim theorems -/

/-- C3: the image intake validator accepts an upload candidate if and only
if all three checks pass — the declared content type is present and starts
with `image/`, the byte length does not exceed 5 MiB, and the payload's
leading bytes start with one of the five defined signatures — and any
candidate failing a check is rejected with the corresponding message,
regardless of the other inputs. -/
theorem C3_validator_iff (content_type : Option String) (content : List Nat) :
    (validate_upload content_type content = .ok () ↔
      content_type_ok content_type = true ∧
      content.length ≤ MAX_IMAGE_SIZE ∧
      validate_image_signature content = true) ∧
    (content_type_ok content_type = true ↔
      ∃ s, content_type = some s ∧ str_startswith s "image/" = true) ∧
    (validate_image_signature content = true ↔
      ∃ signature ∈ IMAGE_SIGNATURES, signature.isPrefixOf content = true) ∧
    (content_type_ok content_type = false →
      validate_upload content_type content =
        .error ⟨400, "File must be an image"⟩) ∧
    (content_type_ok content_type = true → content.length > MAX_IMAGE_SIZE →
      validate_upload content_type content = .error ⟨400, sizeLimitMessage⟩) ∧
    (content_type_ok content_type = true → content.length ≤ MAX_IMAGE_SIZE →
      validate_image_signature content = false →
      validate_upload content_type content =
        .error ⟨400, "Invalid image file format"⟩) := by
  refine ⟨?_, ?_, ?_, ?_, ?_, ?_⟩
  · unfold validate_upload
    constructor
    · intro h
      by_cases h1 : content_type_ok content_type
      · by_cases h2 : content.length > MAX_IMAGE_SIZE
        · simp [h1, h2] at h
        · by_cases h3 : validate_image_signature content
          · exact ⟨h1, by omega, h3⟩
          · simp [h1, h2, h3] at h
      · simp [h1] at h
    · rintro ⟨h1, h2, h3⟩
      simp [h1, h3, Nat.not_lt.mpr h2]
  · cases content_type with
    | none => simp [content_type_ok]
    | some s =>
      simp only [content_type_ok, Bool.and_eq_true, bne_iff_ne, ne_eq]
      constructor
      · rintro ⟨-, h⟩; exact ⟨s, rfl, h⟩
      · rintro ⟨t, ht, h⟩
        cases ht
        refine ⟨fun he => ?_, h⟩
        subst he
        exact absurd h (by decide)
  · simp [validate_image_signature, List.any_eq_true]
  · intro h1
    simp [validate_upload, h1]
  · intro h1 h2
    simp [validate_upload, h1, h2]
  · intro h1 h2 h3
    simp [validate_upload, h1, h3, Nat.not_lt.mpr h2]

/-- C3 witness: the JPEG scenario candidate passes all three checks and is
accepted. -/
theorem C3_validator_iff_witness :
    validate_upload (some "image/jpeg") jpegBytes = .ok () :=
  (C3_validator_iff (some "image/jpeg") jpegBytes).1.mpr
    ⟨by decide, by decide, by decide⟩

/-- C8: extension derivation is total — for every filename input (including
`none`, a name with no dot, and a name with an unrecognized extension) it
returns a member of `{.jpg, .jpeg, .png, .gif, .webp}`; it returns the
lower-cased final dot-delimited segment (with its dot) exactly when that
segment is in the allowed set, and `.jpg` in every other case. -/
theorem C8_extension_total (filename : Option String) :
    allowed_extensions.contains (get_safe_extension filename) = true ∧
    (∀ s, filename = some s → (s != "" && strContainsChar s '.') = true →
      allowed_extensions.contains ("." ++ strLower (afterLastChar s '.')) = true →
      get_safe_extension filename = "." ++ strLower (afterLastChar s '.')) ∧
    (∀ s, filename = some s → (s != "" && strContainsChar s '.') = true →
      allowed_extensions.contains ("." ++ strLower (afterLastChar s '.')) = false →
      get_safe_extension filename = ".jpg") ∧
    (∀ s, filename = some s → (s != "" && strContainsChar s '.') = false →
      get_safe_extension filename = ".jpg") ∧
    (filename = none → get_safe_extension filename = ".jpg") := by
  refine ⟨?_, ?_, ?_, ?_, ?_⟩
  · cases filename with
    | none => decide
    | some s =>
      simp only [get_safe_extension]
      split
      · split
        · assumption
        · decide
      · decide
  · intro s hs h1 h2
    subst hs
    simp only [get_safe_extension]
    rw [if_pos h1, if_pos h2]
  · intro s hs h1 h2
    subst hs
    simp only [get_safe_extension]
    rw [if_pos h1, if_neg (by rw [h2]; decide)]
  · intro s hs h1
    subst hs
    simp only [get_safe_extension]
    rw [if_neg (by simp [h1])]
  · intro h
    subst h
    rfl

/-- C8 witness: exercising the characterization on `photo.jpg` (recognized),
`photo.PNG` (case-folded), `archive.tar.gz` (unrecognized) and a dotless
name. -/
theorem C8_extension_total_witness :
    allowed_extensions.contains (get_safe_extension (some "photo.jpg")) = true ∧
    get_safe_extension (some "photo.PNG") = "." ++ strLower (afterLastChar "photo.PNG" '.') ∧
    get_safe_extension (some "archive.tar.gz") = ".jpg" ∧
    get_safe_extension (some "noext") = ".jpg" ∧
    get_safe_extension none = ".jpg" :=
  ⟨(C8_extension_total (some "photo.jpg")).1,
   (C8_extension_total (some "photo.PNG")).2.1 "photo.PNG" rfl (by decide) (by decide),
   (C8_extension_total (some "archive.tar.gz")).2.2.1 "archive.tar.gz" rfl (by decide)
     (by decide),
   (C8_extension_total (some "noext")).2.2.2.1 "noext" rfl (by decide),
   (C8_extension_total none).2.2.2.2 rfl⟩

/-- C9: every payload longer than the configured ceiling is rejected, and
when the size check is the one that fires its message reports the ceiling in
whole megabytes — `5MB` for the 5 MiB ceiling. -/
theorem C9_size_limit (content_type : Option String) (content : List Nat)
    (h : content.length > MAX_IMAGE_SIZE) :
    (∃ e, validate_upload content_type content = .error e) ∧
    (content_type_ok content_type = true →
      validate_upload content_type content = .error ⟨400, sizeLimitMessage⟩) ∧
    sizeLimitMessage = "File size exceeds maximum allowed size of 5MB" ∧
    MAX_IMAGE_SIZE / (1024 * 1024) = 5 := by
  refine ⟨?_, ?_, by decide, by decide⟩
  · by_cases h1 : content_type_ok content_type
    · exact ⟨⟨400, sizeLimitMessage⟩, by simp [validate_upload, h1, h]⟩
    · exact ⟨⟨400, "File must be an image"⟩, by simp [validate_upload, h1]⟩
  · intro h1
    simp [validate_upload, h1, h]

/-- C9 witness: a payload one byte over the 5 MiB ceiling, declared as
`image/jpeg`, is rejected with the 5MB message. -/
theorem C9_size_limit_witness :
    validate_upload (some "image/jpeg") (List.replicate (MAX_IMAGE_SIZE + 1) 0) =
      .error ⟨400, sizeLimitMessage⟩ :=
  (C9_size_limit (some "image/jpeg") (List.replicate (MAX_IMAGE_SIZE + 1) 0)
    (by simp)).2.1 (by decide)

/-- Helper: the review an accepted upload returns is the found record with
exactly `image_path` and `updated_at` replaced. -/
theorem upload_ok_shape (st : AppState) (now : Nat) (token : String)
    (review_id : Nat) (content_type filename : Option String)
    (content : List Nat) (r0 r : Review)
    (h0 : st.getReview review_id = some r0)
    (h : (upload_review_image st now token review_id content_type filename
      content).2 = .ok r) :
    r = { r0 with
          image_path := some (UPLOADS_DIR ++ "/reviews/" ++ toString review_id
            ++ "/" ++ (token ++ get_safe_extension filename)),
          updated_at := now } := by
  simp only [upload_review_image, h0] at h
  cases hv : validate_upload content_type content with
  | error e => rw [hv] at h; simp at h
  | ok u => cases u; rw [hv] at h; simp at h; exact h.symm

/-- C1 counterexample: the 10-byte JPEG scenario upload for review 1 is
accepted, but the stored path is `uploads/reviews/1/abc123.jpg` — it starts
with the upload-root directory name and is not of the form
`reviews/1/abc123.jpg`. -/
theorem C1_counterexample :
    (upload_review_image st0 5 "abc123" 1 (some "image/jpeg")
        (some "photo.jpg") jpegBytes).2 = .ok review1up ∧
    review1up.image_path = some "uploads/reviews/1/abc123.jpg" ∧
    str_startswith "uploads/reviews/1/abc123.jpg" (UPLOADS_DIR ++ "/") = true ∧
    "uploads/reviews/1/abc123.jpg" ≠ "reviews/1/abc123.jpg" :=
  ⟨by decide, by decide, by decide, by decide⟩

/-- C1 (amended): for every accepted upload to an existing review, the save
operation returns the stored path
`{upload_root}/reviews/{review_id}/{token}{extension}` — the relative path
includes the upload-root directory name as its first segment. -/
theorem C1_stored_path_shape (st : AppState) (now : Nat) (token : String)
    (review_id : Nat) (content_type filename : Option String)
    (content : List Nat) (r0 r : Review)
    (h0 : st.getReview review_id = some r0)
    (h : (upload_review_image st now token review_id content_type filename
      content).2 = .ok r) :
    r.image_path = some (UPLOADS_DIR ++ "/reviews/" ++ toString review_id
      ++ "/" ++ (token ++ get_safe_extension filename)) := by
  rw [upload_ok_shape st now token review_id content_type filename content
    r0 r h0 h]

/-- C1 witness: the scenario upload instantiates the amended path shape. -/
theorem C1_stored_path_shape_witness :
    review1up.image_path = some (UPLOADS_DIR ++ "/reviews/" ++ toString 1
      ++ "/" ++ ("abc123" ++ get_safe_extension (some "photo.jpg"))) :=
  C1_stored_path_shape st0 5 "abc123" 1 (some "image/jpeg")
    (some "photo.jpg") jpegBytes review1 review1up (by decide) (by decide)

/-- C2: the claim promises detail extraction never itself throws, but
`_extract_detail` only catches `ValueError` and `KeyError`; on a 404
response whose body is the JSON array `[1]`, `response.json()` succeeds and
`data.get("detail", ...)` raises `AttributeError`, which escapes
`_handle_response` as an untyped exception instead of any of the four typed
failures. -/
theorem C2_extract_detail_uncaught :
    handle_response ⟨404, some (.arr [.num 1])⟩ = .uncaught .attributeError ∧
    extract_detail (some (.arr [.num 1])) = .error .attributeError ∧
    handle_response ⟨422, some (.obj [("detail", .arr [.num 1])])⟩ =
      .uncaught .attributeError :=
  ⟨rfl, rfl, rfl⟩

/-- Helper: the element a removal filter keeps is never the removed path. -/
theorem contains_filter_rm (l : List String) (p : String) :
    (l.filter (fun d => !(d == p || str_startswith d (p ++ "/")))).contains p
      = false := by
  rw [Bool.eq_false_iff]
  intro hc
  have hm := List.mem_filter.mp (List.elem_iff.mp hc)
  simp at hm

/-- C4 counterexample: two deletions that succeed yet leave the per-review
directory on disk — review 1 owns an image but `rmtree` fails with a
swallowed `OSError`, and review 1 has no image path while the directory
exists, so the purge branch is skipped entirely. -/
theorem C4_counterexample :
    ((delete_review stimg true 1).2 = .ok () ∧
      (delete_review stimg true 1).1.getReview 1 = none ∧
      (delete_review stimg true 1).1.fs.dirExists (reviewDirPath 1) = true) ∧
    ((delete_review stno false 1).2 = .ok () ∧
      (delete_review stno false 1).1.getReview 1 = none ∧
      (delete_review stno false 1).1.fs.dirExists (reviewDirPath 1) = true) := by
  refine ⟨⟨by decide, by decide, by decide⟩, ⟨by decide, by decide, by decide⟩⟩

/-- C4 (amended): after a review whose image path is set is successfully
deleted and the directory removal raises no error, the per-review asset
directory no longer exists on disk. -/
theorem C4_delete_removes_dir (st : AppState) (review_id : Nat) (r : Review)
    (h0 : st.getReview review_id = some r)
    (h1 : truthyOpt r.image_path = true) :
    (delete_review st false review_id).1.fs.dirExists (reviewDirPath review_id)
      = false := by
  simp only [delete_review, h0, h1, if_true]
  by_cases hd : st.fs.dirExists (reviewDirPath review_id)
  · simp only [hd, if_true, if_false]
    exact contains_filter_rm st.fs.dirs (reviewDirPath review_id)
  · rw [Bool.not_eq_true] at hd
    simp only [hd, if_false]
    exact hd

/-- C4 witness: deleting the image-owning review with a healthy filesystem
removes its directory. -/
theorem C4_delete_removes_dir_witness :
    (delete_review stimg false 1).1.fs.dirExists (reviewDirPath 1) = false :=
  C4_delete_removes_dir stimg 1
    { review1 with image_path := some "uploads/reviews/1/a.jpg" }
    (by decide) (by decide)

/-- C5: every rejected upload — unknown review, declared-type failure, size
failure, or signature failure — leaves the entire state untouched: no file
or directory is created and every review record keeps all its fields. -/
theorem C5_rejection_pure (st : AppState) (now : Nat) (token : String)
    (review_id : Nat) (content_type filename : Option String)
    (content : List Nat) (e : HttpError)
    (h : (upload_review_image st now token review_id content_type filename
      content).2 = .error e) :
    (upload_review_image st now token review_id content_type filename
      content).1 = st ∧
    (upload_review_image st now token review_id content_type filename
      content).1.fs.files = st.fs.files ∧
    (upload_review_image st now token review_id content_type filename
      content).1.reviews = st.reviews := by
  have hst : (upload_review_image st now token review_id content_type filename
      content).1 = st := by
    cases h0 : st.getReview review_id with
    | none => simp only [upload_review_image, h0]
    | some r0 =>
      cases hv : validate_upload content_type content with
      | error e2 => simp only [upload_review_image, h0, hv]
      | ok u =>
        cases u
        simp only [upload_review_image, h0, hv] at h
        simp at h
  exact ⟨hst, by rw [hst], by rw [hst]⟩

/-- C5 witness: uploading to the non-existent review 2 is rejected and
changes nothing. -/
theorem C5_rejection_pure_witness :
    (upload_review_image st0 0 "tok" 2 (some "image/jpeg") (some "photo.jpg")
      jpegBytes).1 = st0 ∧
    (upload_review_image st0 0 "tok" 2 (some "image/jpeg") (some "photo.jpg")
      jpegBytes).1.fs.files = st0.fs.files ∧
    (upload_review_image st0 0 "tok" 2 (some "image/jpeg") (some "photo.jpg")
      jpegBytes).1.reviews = st0.reviews :=
  C5_rejection_pure st0 0 "tok" 2 (some "image/jpeg") (some "photo.jpg")
    jpegBytes ⟨404, "Review not found"⟩ (by decide)

/-- C6: deleting an existing review always succeeds and removes the record,
whatever the purge outcome: the purge is a no-op when the directory does not
exist, and an `OSError` during removal is swallowed without preventing
record deletion. -/
theorem C6_delete_always_ok (st : AppState) (rmtreeRaises : Bool)
    (review_id : Nat) (r : Review) (h0 : st.getReview review_id = some r) :
    (delete_review st rmtreeRaises review_id).2 = .ok () ∧
    (delete_review st rmtreeRaises review_id).1.getReview review_id = none ∧
    (st.fs.dirExists (reviewDirPath review_id) = false →
      (delete_review st rmtreeRaises review_id).1.fs = st.fs) := by
  refine ⟨?_, ?_, ?_⟩
  · simp only [delete_review, h0]
  · have hred : (delete_review st rmtreeRaises review_id).1.reviews
        = st.reviews.filter (fun q => q.id != review_id) := by
      simp only [delete_review, h0]
    unfold AppState.getReview
    rw [hred, List.find?_eq_none]
    intro x hx
    have := (List.mem_filter.mp hx).2
    simp at this ⊢
    exact this
  · intro hd
    rw [Bool.eq_false_iff] at hd
    simp only [delete_review, h0]
    by_cases ht : truthyOpt r.image_path
    · simp only [ht, if_true]
      rw [if_neg hd]
    · rw [Bool.not_eq_true] at ht
      simp [ht]

/-- C6 witness: deleting review 1 with a failing `rmtree` still succeeds and
removes the record; deleting from a state with no asset directory leaves the
filesystem untouched. -/
theorem C6_delete_always_ok_witness :
    ((delete_review stimg true 1).2 = .ok () ∧
      (delete_review stimg true 1).1.getReview 1 = none ∧
      (stimg.fs.dirExists (reviewDirPath 1) = false →
        (delete_review stimg true 1).1.fs = stimg.fs)) ∧
    ((delete_review st0 false 1).2 = .ok () ∧
      (delete_review st0 false 1).1.getReview 1 = none ∧
      (st0.fs.dirExists (reviewDirPath 1) = false →
        (delete_review st0 false 1).1.fs = st0.fs)) :=
  ⟨C6_delete_always_ok stimg true 1
      { review1 with image_path := some "uploads/reviews/1/a.jpg" } (by decide),
    C6_delete_always_ok st0 false 1 review1 (by decide)⟩

/-- C10: a successful image upload changes exactly `image_path` (to the
newly stored path) and `updated_at` (to the commit instant); identifier,
author name, author external identity, media type, media title, media year,
rating, text, spoiler flag, and `created_at` are all unchanged. -/
theorem C10_upload_frame (st : AppState) (now : Nat) (token : String)
    (review_id : Nat) (content_type filename : Option String)
    (content : List Nat) (r0 r : Review)
    (h0 : st.getReview review_id = some r0)
    (h : (upload_review_image st now token review_id content_type filename
      content).2 = .ok r) :
    r.id = r0.id ∧
    r.author_name = r0.author_name ∧
    r.author_telegram_id = r0.author_telegram_id ∧
    r.media_type = r0.media_type ∧
    r.media_title = r0.media_title ∧
    r.media_year = r0.media_year ∧
    r.rating = r0.rating ∧
    r.text = r0.text ∧
    r.contains_spoilers = r0.contains_spoilers ∧
    r.created_at = r0.created_at ∧
    r.image_path = some (UPLOADS_DIR ++ "/reviews/" ++ toString review_id
      ++ "/" ++ (token ++ get_safe_extension filename)) ∧
    r.updated_at = now := by
  rw [upload_ok_shape st now token review_id content_type filename content
    r0 r h0 h]
  exact ⟨rfl, rfl, rfl, rfl, rfl, rfl, rfl, rfl, rfl, rfl, rfl, rfl⟩

/-- C10 witness: the scenario upload changes only the image path and the
update instant of review 1. -/
theorem C10_upload_frame_witness :
    review1up.id = review1.id ∧
    review1up.author_name = review1.author_name ∧
    review1up.author_telegram_id = review1.author_telegram_id ∧
    review1up.media_type = review1.media_type ∧
    review1up.media_title = review1.media_title ∧
    review1up.media_year = review1.media_year ∧
    review1up.rating = review1.rating ∧
    review1up.text = review1.text ∧
    review1up.contains_spoilers = review1.contains_spoilers ∧
    review1up.created_at = review1.created_at ∧
    review1up.image_path = some (UPLOADS_DIR ++ "/reviews/" ++ toString 1
      ++ "/" ++ ("abc123" ++ get_safe_extension (some "photo.jpg"))) ∧
    review1up.updated_at = 5 :=
  C10_upload_frame st0 5 "abc123" 1 (some "image/jpeg") (some "photo.jpg")
    jpegBytes review1 review1up (by decide) (by decide)

/-- Helper: the 422 comprehension over well-formed error entries (each an
object with a singleton `loc` list and a `msg` string) yields the
`field: message` strings, in order. -/
theorem errMessages_structured (pairs : List (String × String)) :
    errMessages (pairs.map (fun pr =>
      Json.obj [("loc", .arr [.str pr.1]), ("msg", .str pr.2)])) =
    .ok (pairs.map (fun pr => pr.1 ++ ": " ++ pr.2)) := by
  induction pairs with
  | nil => rfl
  | cons p rest ih =>
    have hhead : errMessage
        (Json.obj [("loc", .arr [.str p.1]), ("msg", .str p.2)])
        = .ok (p.1 ++ ": " ++ p.2) := rfl
    simp only [List.map_cons, errMessages, hhead, ih]

/-- C7 counterexample: the mapping table fails as stated on parseable
non-object bodies — a 400 whose body is the JSON array `[1]` does not raise
BadRequest with a detail string, a 422 with the same body does not raise
ValidationFailed, and a 404 whose body is the JSON string `"gone"` does not
raise NotFound; in each case an untyped `AttributeError` escapes instead. -/
theorem C7_counterexample :
    handle_response ⟨400, some (.arr [.num 1])⟩ = .uncaught .attributeError ∧
    handle_response ⟨422, some (.arr [.num 1])⟩ = .uncaught .attributeError ∧
    handle_response ⟨404, some (.str "gone")⟩ = .uncaught .attributeError :=
  ⟨rfl, rfl, rfl⟩

/-- C7 (amended): the translator maps per the table — transport errors
raise ServiceUnavailable; 404 raises NotFound with the detail of an object
body or the `Unknown error` default when the detail key is absent or the
body unparseable; 422 raises ValidationFailed with `field: message` strings
from a well-formed structured detail list, a single message for a non-list
detail, and a generic message for an unparseable body; 400 raises
BadRequest with the detail of an object body or the `Unknown error` default
for an unparseable one; status of 500 and above raises ServiceUnavailable
embedding the numeric status; every other status returns the response
unchanged — provided any parseable body is a JSON object; on a parseable
non-object body, the 404, 422 and 400 branches instead let an untyped
`AttributeError` escape (the defect recorded under C2). -/
theorem C7_translator_table :
    (∀ m, make_request (.timeout m)
      = .apiUnavailable ("Request timed out: " ++ m)) ∧
    (∀ m, make_request (.connectError m)
      = .apiUnavailable ("Failed to connect to API: " ++ m)) ∧
    (∀ m, make_request (.requestError m)
      = .apiUnavailable ("Request failed: " ++ m)) ∧
    (∀ kvs, handle_response ⟨404, some (.obj kvs)⟩
      = .apiNotFound (jsonGet kvs "detail" (.str "Unknown error"))) ∧
    (handle_response ⟨404, none⟩ = .apiNotFound (.str "Unknown error")) ∧
    (∀ j, j.isObj = false →
      handle_response ⟨404, some j⟩ = .uncaught .attributeError) ∧
    (∀ pairs : List (String × String), handle_response ⟨422, some (.obj
        [("detail", .arr (pairs.map (fun pr =>
          Json.obj [("loc", .arr [.str pr.1]), ("msg", .str pr.2)])))])⟩
      = .apiValidationError "Validation error"
          (pairs.map (fun pr => pr.1 ++ ": " ++ pr.2))) ∧
    (∀ s, handle_response ⟨422, some (.obj [("detail", .str s)])⟩
      = .apiValidationError s []) ∧
    (handle_response ⟨422, none⟩ = .apiValidationError "Validation error" []) ∧
    (∀ j, j.isObj = false →
      handle_response ⟨422, some j⟩ = .uncaught .attributeError) ∧
    (∀ kvs, handle_response ⟨400, some (.obj kvs)⟩
      = .apiBadRequest (jsonGet kvs "detail" (.str "Unknown error"))) ∧
    (handle_response ⟨400, none⟩ = .apiBadRequest (.str "Unknown error")) ∧
    (∀ j, j.isObj = false →
      handle_response ⟨400, some j⟩ = .uncaught .attributeError) ∧
    (∀ n b, 500 ≤ n → handle_response ⟨n, b⟩
      = .apiUnavailable ("Server error: " ++ toString n)) ∧
    (∀ resp, resp.status_code ≠ 404 → resp.status_code ≠ 422 →
      resp.status_code ≠ 400 → resp.status_code < 500 →
      handle_response resp = .ok resp) := by
  refine ⟨fun m => rfl, fun m => rfl, fun m => rfl, fun kvs => rfl, rfl,
    ?_, ?_, fun s => rfl, rfl, ?_, fun kvs => rfl, rfl, ?_, ?_, ?_⟩
  · intro j hj
    cases j with
    | null => rfl
    | bool b => rfl
    | num n => rfl
    | str s => rfl
    | arr xs => rfl
    | obj kvs => simp [Json.isObj] at hj
  · intro pairs
    have h1 : ∀ errs, handle_response ⟨422, some (.obj [("detail", .arr errs)])⟩
        = (match errMessages errs with
           | .ok messages => Outcome.apiValidationError "Validation error" messages
           | .error .keyError => Outcome.apiValidationError "Validation error" []
           | .error ex => Outcome.uncaught ex) := fun errs => rfl
    rw [h1, errMessages_structured]
  · intro j hj
    cases j with
    | null => rfl
    | bool b => rfl
    | num n => rfl
    | str s => rfl
    | arr xs => rfl
    | obj kvs => simp [Json.isObj] at hj
  · intro j hj
    cases j with
    | null => rfl
    | bool b => rfl
    | num n => rfl
    | str s => rfl
    | arr xs => rfl
    | obj kvs => simp [Json.isObj] at hj
  · intro n b h
    have h404 : (n == 404) = false := by
      rw [beq_eq_false_iff_ne]; omega
    have h422 : (n == 422) = false := by
      rw [beq_eq_false_iff_ne]; omega
    have h400 : (n == 400) = false := by
      rw [beq_eq_false_iff_ne]; omega
    simp [handle_response, h404, h422, h400, h]
  · intro resp h404 h422 h400 h500
    cases resp with
    | mk n b =>
      have b404 : (n == 404) = false := by rw [beq_eq_false_iff_ne]; exact h404
      have b422 : (n == 422) = false := by rw [beq_eq_false_iff_ne]; exact h422
      have b400 : (n == 400) = false := by rw [beq_eq_false_iff_ne]; exact h400
      have b500 : ¬ (500 ≤ n) := Nat.not_le.mpr h500
      simp [handle_response, b404, b422, b400, b500]

/-- C7 witness: a 418 passes through unchanged, a 503 maps to
ServiceUnavailable with the status embedded, and a 400 with a parseable
non-object body lets the untyped error escape. -/
theorem C7_translator_table_witness :
    handle_response ⟨418, none⟩ = .ok ⟨418, none⟩ ∧
    handle_response ⟨503, none⟩
      = .apiUnavailable ("Server error: " ++ toString 503) ∧
    handle_response ⟨400, some (.str "oops")⟩ = .uncaught .attributeError :=
  ⟨C7_translator_table.2.2.2.2.2.2.2.2.2.2.2.2.2.2 ⟨418, none⟩ (by decide)
      (by decide) (by decide) (by decide),
    C7_translator_table.2.2.2.2.2.2.2.2.2.2.2.2.2.1 503 none (by decide),
    C7_translator_table.2.2.2.2.2.2.2.2.2.2.2.2.1 (.str "oops") (by decide)⟩

end EchoFastapi
